import Mathlib

/-!
Verification of the hdx-scraper-humoutcomes pipeline.

Shallow embedding of src/hdx/scraper/humoutcomes/pipeline.py and
src/hdx/scraper/humoutcomes/__main__.py.  A pandas DataFrame is modelled
as a column list plus rows given as association lists from column name to
cell.  A cell is either null (pandas NaN / NA / NaT, modelled as none) or
an integer or string value; numeric cells are modelled as integers, since
no verified property depends on fractional values.
-/

namespace Humoutcomes

/-- Scalar value stored in a table cell. -/
inductive Value where
  | int (n : Int)
  | str (s : String)
deriving DecidableEq, Repr

/-- Cell of a table: none models a pandas null (NaN / NA / NaT). -/
abbrev Cell := Option Value

/-- Row of a table: association list from column name to cell. -/
abbrev Row := List (String × Cell)

/-- Tabular structure modelling a pandas DataFrame. -/
structure DataFrame where
  columns : List String
  rows : List Row
deriving DecidableEq, Repr

/-- Lookup of a column in a row; none when the column is absent. -/
def getCol (r : Row) (c : String) : Option Cell :=
  (r.find? (fun p => p.1 == c)).map (fun p => p.2)

/-- Value of a cell in a row, treating an absent column as null. -/
def cellAt (r : Row) (c : String) : Cell :=
  (getCol r c).getD none

/-- Column names of a row. -/
def rowKeys (r : Row) : List String :=
  r.map Prod.fst

/-- Text rendered for a cell when the table is serialized to CSV:
nulls serialize to the empty field, integers to their decimal form. -/
def cellRepr : Cell → String
  | none => ""
  | some (Value.int n) => toString n
  | some (Value.str s) => s

/-- Integer parser modelling pd.to_numeric on integer-formatted strings
(an optional sign followed by digits); any other string coerces to null. -/
def parseInt? (s : String) : Option Int :=
  let cs := s.toList
  let signAndDigits : Int × List Char :=
    match cs with
    | '-' :: rest => (-1, rest)
    | '+' :: rest => (1, rest)
    | _ => (1, cs)
  let sign := signAndDigits.1
  let ds := signAndDigits.2
  if ds.isEmpty then none
  else if ds.all (fun c => c.isDigit) then
    some (sign * (Int.ofNat (ds.foldl (fun n c => n * 10 + (c.toNat - 48)) 0)))
  else none

/-- Numeric view of a cell, modelling pd.to_numeric with coercion of
failures to null: integer cells pass through, strings are parsed. -/
def cellToNumeric : Cell → Option Int
  | none => none
  | some (Value.int n) => some n
  | some (Value.str s) => parseInt? s

/-- Numeric view of a named cell of a row. -/
def numCell (r : Row) (c : String) : Option Int :=
  cellToNumeric (cellAt r c)

/-- Clamping of an integer into an interval, modelling Series.clip. -/
def clip (lo hi x : Int) : Int :=
  max lo (min x hi)

/-- Year component used by get_date_range: missing values default to 1
(pipeline.py line 169). -/
def yearVal (r : Row) : Int :=
  (numCell r "Year").getD 1

/-- Month component used by get_date_range: missing values default to 1,
then the value is clamped into [1, 12] (pipeline.py line 170). -/
def monthVal (r : Row) : Int :=
  clip 1 12 ((numCell r "Month").getD 1)

/-- Day component used by get_date_range: missing values default to 1,
then the value is clamped into [1, 31] (pipeline.py line 171). -/
def dayVal (r : Row) : Int :=
  clip 1 31 ((numCell r "Day").getD 1)

/-- Calendar date as used by the pipeline. -/
structure HODate where
  year : Int
  month : Int
  day : Int
deriving DecidableEq, Repr

/-- Lexicographic order on dates. -/
def dateLE (a b : HODate) : Bool :=
  decide (a.year < b.year ∨ (a.year = b.year ∧
    (a.month < b.month ∨ (a.month = b.month ∧ a.day ≤ b.day))))

/-- Earlier of two dates, modelling Series.min over timestamps. -/
def minDate (a b : HODate) : HODate :=
  if dateLE a b then a else b

/-- Later of two dates, modelling Series.max over timestamps. -/
def maxDate (a b : HODate) : HODate :=
  if dateLE a b then b else a

/-- Proleptic Gregorian leap-year rule used by pandas timestamps. -/
def isLeap (y : Int) : Bool :=
  (y % 4 == 0 && y % 100 != 0) || y % 400 == 0

/-- Number of days of a month, as validated by pd.to_datetime. -/
def daysInMonth (y m : Int) : Int :=
  if m = 2 then (if isLeap y then 29 else 28)
  else if m = 4 ∨ m = 6 ∨ m = 9 ∨ m = 11 then 30
  else 31

/-- Earliest midnight representable as a pandas Timestamp: Timestamp.min
is 1677-09-21 00:12:43, so the first representable midnight is
1677-09-22; earlier dates are coerced to NaT by pd.to_datetime. -/
def minTimestampDate : HODate := ⟨1677, 9, 22⟩

/-- Latest midnight representable as a pandas Timestamp
(Timestamp.max is 2262-04-11 23:47:16). -/
def maxTimestampDate : HODate := ⟨2262, 4, 11⟩

/-- Composition of a candidate date from clamped components, modelling
pd.to_datetime with coercion: the result is null unless the triple is a
valid calendar date lying inside the pandas Timestamp range. -/
def composeDate (y m d : Int) : Option HODate :=
  if 1 ≤ m ∧ m ≤ 12 ∧ 1 ≤ d ∧ d ≤ daysInMonth y m
      ∧ dateLE minTimestampDate ⟨y, m, d⟩ = true
      ∧ dateLE ⟨y, m, d⟩ maxTimestampDate = true
  then some ⟨y, m, d⟩
  else none

/-- Candidate date of one row (pipeline.py lines 165-177). -/
def rowDate (r : Row) : Option HODate :=
  composeDate (yearVal r) (monthVal r) (dayVal r)

/-- Dates surviving coercion across the rows of a table, in row order
(the non-NaT entries of the datetime Series). -/
def validDates (df : DataFrame) : List HODate :=
  df.rows.filterMap rowDate

/-- Start-of-range sentinel default_date of hdx.utilities.dateparse:
0001-01-01. -/
def default_date : HODate := ⟨1, 1, 1⟩

/-- End-of-range sentinel default_enddate of hdx.utilities.dateparse:
9999-12-31. -/
def default_enddate : HODate := ⟨9999, 12, 31⟩

/-- Range of a list of surviving dates: the sentinel pair when the list
is empty, otherwise the minimum and maximum (pipeline.py lines 179-182). -/
def rangeOfDates : List HODate → HODate × HODate
  | [] => (default_enddate, default_date)
  | d :: ds => (ds.foldl minDate d, ds.foldl maxDate d)

/-- Embedding of Pipeline.get_date_range (pipeline.py lines 161-182). -/
def get_date_range (df : DataFrame) : HODate × HODate :=
  rangeOfDates (validDates df)

/-- Test of the country filter of pipeline.py line 53: a row matches when
its Country Code cell equals the given iso2 string exactly. -/
def rowMatches (r : Row) (iso2 : String) : Bool :=
  decide (cellAt r "Country Code" = some (Value.str iso2))

/-- Embedding of the row selection of pipeline.py line 53. -/
def countryFilter (df : DataFrame) (iso2 : String) : DataFrame :=
  { columns := df.columns, rows := df.rows.filter (fun r => rowMatches r iso2) }

/-- Columns redacted for the Palestinian territory. -/
def geoCols : List String := ["Latitude", "Longitude", "City"]

/-- Embedding of DataFrame.drop(columns=..., errors="ignore")
(pipeline.py lines 60-62). -/
def dropColumns (df : DataFrame) (cols : List String) : DataFrame :=
  { columns := df.columns.filter (fun c => !(decide (c ∈ cols))),
    rows := df.rows.map (fun r => r.filter (fun p => !(decide (p.1 ∈ cols)))) }

/-- Per-country projection of pipeline.py lines 53-62: filter to the
rows of the given iso2, dropping Latitude, Longitude and City when the
iso3 is PSE. -/
def countryProjection (data : DataFrame) (iso2 iso3 : String) : DataFrame :=
  if iso3 = "PSE" then dropColumns (countryFilter data iso2) geoCols
  else countryFilter data iso2

/-- Country descriptor passed to generate_dataset, holding the values of
country.get with default empty string. -/
structure Country where
  iso2 : String
  iso3 : String
  name : String
deriving DecidableEq, Repr

/-- Static configuration values read from self.configuration. -/
structure Config where
  title : String
  tags : List String
deriving DecidableEq, Repr

/-- Dataset descriptor assembled by the pipeline, recording the metadata
set on the hdx Dataset object and the serialized resource content
(headers and records passed to generate_resource_from_iterable). -/
structure Dataset where
  name : String
  title : String
  tags : List String
  timePeriod : HODate × HODate
  subnational : Bool
  location : String
  resourceName : String
  resourceDescription : String
  resourceHeaders : List String
  resourceRows : List Row
deriving DecidableEq, Repr

/-- ASCII lowercasing of a string, modelling str.lower() on iso3 codes. -/
def lowerString (s : String) : String :=
  String.mk (s.data.map Char.toLower)

/-- Dataset built by generate_dataset for a country with data
(pipeline.py lines 64-107). -/
def mkCountryDataset (cfg : Config) (data : DataFrame) (c : Country) : Dataset :=
  let country_df := countryProjection data c.iso2 c.iso3
  { name := "aid-worker-security-database-" ++ lowerString c.iso3
    title := c.name ++ " - " ++ cfg.title
    tags := cfg.tags
    timePeriod := get_date_range country_df
    subnational := true
    location := c.iso3
    resourceName := "AWSD_" ++ c.iso2 ++ "_security_incidents.csv"
    resourceDescription :=
      "This dataset shows aid worker security incidents in " ++ c.name ++ "."
    resourceHeaders := country_df.columns
    resourceRows := country_df.rows }

/-- Embedding of Pipeline.generate_dataset (pipeline.py lines 45-107).
The external location lookup add_country_location is modelled by the
locationResolvable parameter: an HDXError there makes the function
return nothing, as does an empty country selection. -/
def generate_dataset (cfg : Config) (locationResolvable : String → Bool)
    (data : DataFrame) (country : Country) : Option Dataset :=
  if (countryFilter data country.iso2).rows.isEmpty then none
  else if locationResolvable country.iso3 then
    some (mkCountryDataset cfg data country)
  else none

/-- Cell conversion of astype("string") (pipeline.py line 118): values
become their string form, nulls stay null. -/
def cellAsString : Cell → Cell
  | none => none
  | some (Value.int n) => some (Value.str (toString n))
  | some (Value.str s) => some (Value.str s)

/-- Application of a cell transformation to the Latitude, Longitude and
City columns of a row, leaving other columns untouched. -/
def mapGeoCells (r : Row) (f : Cell → Cell) : Row :=
  r.map (fun p => if p.1 ∈ geoCols then (p.1, f p.2) else p)

/-- Row transformation of the global projection (pipeline.py lines
116-119): the geo columns are cast to string dtype, and rows whose
Country Code is PS have those cells overwritten with the empty string. -/
def globalRow (r : Row) : Row :=
  if rowMatches r "PS" = true
  then mapGeoCells (mapGeoCells r cellAsString) (fun _ => some (Value.str ""))
  else mapGeoCells r cellAsString

/-- Global projection of pipeline.py lines 113-119: a copy of the full
table with the Palestinian rows blanked in the geo columns. -/
def globalProject (df : DataFrame) : DataFrame :=
  { columns := df.columns, rows := df.rows.map globalRow }

/-- Dataset built by generate_global_dataset (pipeline.py lines 121-159). -/
def mkGlobalDataset (cfg : Config) (data : DataFrame) : Dataset :=
  let global_df := globalProject data
  { name := "aid-worker-security-data-global"
    title := "Global - Aid Worker Security Database"
    tags := cfg.tags
    timePeriod := get_date_range global_df
    subnational := true
    location := "world"
    resourceName := "Global security incidents"
    resourceDescription :=
      "The AWSD is a global compilation of reports on major security incidents involving deliberate acts of violence affecting aid workers. Annually, the data for the previous year undergoes a verification process to ensure that the data is accurate. For incident descriptions, please download data directly from www.aidworkersecurity.org"
    resourceHeaders := global_df.columns
    resourceRows := global_df.rows }

/-- Embedding of Pipeline.generate_global_dataset (pipeline.py lines
109-159). -/
def generate_global_dataset (cfg : Config) (data : DataFrame) : Option Dataset :=
  some (mkGlobalDataset cfg data)

/-- Raw CSV cell as produced by read_csv after the header row and the
skipped tag row: none is a blank field (NaN under keep_default_na). -/
abbrev RawCell := Option String

/-- Parsed CSV document handed to the loading step of get_data. -/
structure SourceCsv where
  columns : List String
  rows : List (List (String × RawCell))
deriving DecidableEq, Repr

/-- Date columns coerced by get_data (pipeline.py line 36). -/
def dateCols : List String := ["Year", "Month", "Day"]

/-- Raw cell of a source row in a given column, treating an absent
column as blank. -/
def rawAt (r : List (String × RawCell)) (c : String) : RawCell :=
  (((r.find? (fun p => p.1 == c)).map (fun p => p.2)).getD none)

/-- Dtype inference of read_csv, restricted to what the verified
properties need: a column is object-typed exactly when some present cell
fails numeric parsing; such columns are the ones filled by fillna
(pipeline.py lines 40-41). -/
def isObjectCol (src : SourceCsv) (c : String) : Bool :=
  src.rows.any (fun r =>
    match rawAt r c with
    | some s => (parseInt? s).isNone
    | none => false)

/-- Loaded value of one cell (pipeline.py lines 36-41): the date columns
are coerced to nullable integers with failures becoming null, object
columns have blanks filled with the empty string, and the remaining
numeric columns keep their values with blanks left null. -/
def loadCellValue (src : SourceCsv) (c : String) (v : RawCell) : Cell :=
  if c ∈ dateCols then (v.bind parseInt?).map Value.int
  else if isObjectCol src c then some (Value.str (v.getD ""))
  else (v.bind parseInt?).map Value.int

/-- Loaded form of one source row. -/
def loadRow (src : SourceCsv) (r : List (String × RawCell)) : Row :=
  r.map (fun p => (p.1, loadCellValue src p.1 p.2))

/-- Table produced by the loading step of get_data from a parsed CSV. -/
def loadTable (src : SourceCsv) : DataFrame :=
  { columns := src.columns, rows := src.rows.map (loadRow src) }

/-- Failure of the HTTP retrieval collaborator (Retrieve.download_file). -/
inductive FetchError where
  | downloadFailed (msg : String)
deriving DecidableEq, Repr

/-- Failure of the CSV decoding collaborator (pd.read_csv). -/
inductive ParseError where
  | notTabular (msg : String)
deriving DecidableEq, Repr

/-- Error outcome of the table-loading step. -/
inductive LoadError where
  | fetch (e : FetchError)
  | parse (e : ParseError)
deriving DecidableEq, Repr

/-- Embedding of Pipeline.get_data (pipeline.py lines 25-43).  The HTTP
download and the CSV decode are external collaborators, modelled as the
fetched parameter and the parseCsv parameter; get_data itself catches
nothing, so their failures propagate as the two error outcomes. -/
def get_data (fetched : Except FetchError String)
    (parseCsv : String → Except ParseError SourceCsv) : Except LoadError DataFrame :=
  match fetched with
  | Except.error e => Except.error (LoadError.fetch e)
  | Except.ok raw =>
    match parseCsv raw with
    | Except.error e => Except.error (LoadError.parse e)
    | Except.ok src => Except.ok (loadTable src)

/-- State of a Pipeline object: the configuration, the working directory
and the table stored by get_data. -/
structure Pipeline where
  configuration : Config
  tempdir : String
  data : DataFrame

/-- Method call generate_dataset on the pipeline object: the result is
computed from the stored table; the state is returned unchanged, since
the method reads self only through copies (pipeline.py line 53). -/
def Pipeline.runGenerateDataset (p : Pipeline) (locationResolvable : String → Bool)
    (c : Country) : Option Dataset × Pipeline :=
  (generate_dataset p.configuration locationResolvable p.data c, p)

/-- Method call generate_global_dataset on the pipeline object
(pipeline.py line 113 copies the stored table). -/
def Pipeline.runGenerateGlobalDataset (p : Pipeline) : Option Dataset × Pipeline :=
  (generate_global_dataset p.configuration p.data, p)

/-- Method call get_date_range on the pipeline object (pipeline.py lines
161-182 operate on fresh Series copies). -/
def Pipeline.runGetDateRange (p : Pipeline) (df : DataFrame) :
    (HODate × HODate) × Pipeline :=
  (get_date_range df, p)

/-- One observable method call after loading. -/
inductive PipelineOp where
  | genDataset (locationResolvable : String → Bool) (c : Country)
  | genGlobal
  | dateRange (df : DataFrame)

/-- State transition of one method call. -/
def runOp (p : Pipeline) : PipelineOp → Pipeline
  | PipelineOp.genDataset res c => (p.runGenerateDataset res c).2
  | PipelineOp.genGlobal => p.runGenerateGlobalDataset.2
  | PipelineOp.dateRange df => (p.runGetDateRange df).2

/-- State after a sequence of method calls. -/
def runOps (p : Pipeline) (ops : List PipelineOp) : Pipeline :=
  ops.foldl runOp p

/-- Gate of the country loop of __main__.py line 84: a dataset is only
generated for HRP countries and for the Palestinian territory. -/
def hrpOrPSE (hrpStatus : String → Bool) (c : Country) : Bool :=
  hrpStatus c.iso3 || decide (c.iso3 = "PSE")

/-- Country loop of __main__.py lines 82-85: the datasets generated over
one run, in loop order.  The HRP status lookup is an external
collaborator, passed as a parameter. -/
def runCountries (cfg : Config) (locationResolvable : String → Bool)
    (hrpStatus : String → Bool) (data : DataFrame)
    (countries : List Country) : List Dataset :=
  countries.filterMap (fun c =>
    if hrpOrPSE hrpStatus c then generate_dataset cfg locationResolvable data c
    else none)

/-! Concrete sample data used to exercise the definitions. -/

/-- Column set of a small sample of the source table. -/
def sampleColumns : List String :=
  ["Country Code", "Country", "Latitude", "Longitude", "City", "Year", "Month", "Day"]

/-- Sample incident row for Colombia. -/
def rowCO : Row :=
  [("Country Code", some (Value.str "CO")), ("Country", some (Value.str "Colombia")),
   ("Latitude", some (Value.str "4.5")), ("Longitude", some (Value.str "-74.1")),
   ("City", some (Value.str "Bogota")),
   ("Year", some (Value.int 2020)), ("Month", some (Value.int 5)),
   ("Day", some (Value.int 17))]

/-- Sample incident row for the Palestinian territory. -/
def rowPS : Row :=
  [("Country Code", some (Value.str "PS")), ("Country", some (Value.str "State of Palestine")),
   ("Latitude", some (Value.str "31.9")), ("Longitude", some (Value.str "35.2")),
   ("City", some (Value.str "Nablus")),
   ("Year", some (Value.int 2021)), ("Month", some (Value.int 6)),
   ("Day", some (Value.int 2))]

/-- Sample incident row whose country code matches no country of the run. -/
def rowXX : Row :=
  [("Country Code", some (Value.str "XX")),
   ("Year", some (Value.int 2019)), ("Month", some (Value.int 1)),
   ("Day", some (Value.int 1))]

/-- Row without a Year column. -/
def rowNoYear : Row :=
  [("Month", some (Value.int 5)), ("Day", some (Value.int 4))]

/-- Row whose composed date falls before the representable range. -/
def rowYear1 : Row :=
  [("Year", some (Value.int 1)), ("Month", some (Value.int 1)),
   ("Day", some (Value.int 1))]

/-- Row with an out-of-range month value. -/
def row2020 : Row :=
  [("Year", some (Value.int 2020)), ("Month", some (Value.int 13)),
   ("Day", some (Value.int 1))]

/-- Row whose clamped triple is day 31 of a 30-day month. -/
def rowApril31 : Row :=
  [("Year", some (Value.int 2023)), ("Month", some (Value.int 4)),
   ("Day", some (Value.int 31))]

/-- Sample table with one Colombian and one Palestinian row. -/
def sampleData : DataFrame := ⟨sampleColumns, [rowCO, rowPS]⟩

/-- Sample table whose only row matches no country. -/
def orphanData : DataFrame := ⟨sampleColumns, [rowXX]⟩

/-- Sample table whose only row composes no valid date. -/
def invalidDateData : DataFrame := ⟨["Year", "Month", "Day"], [rowYear1]⟩

/-- Sample configuration values. -/
def cfgSample : Config := ⟨"Aid Worker Security Database", ["aid worker security"]⟩

/-- Location lookup that resolves every iso3. -/
def resolveAll : String → Bool := fun _ => true

/-- HRP status lookup that marks every country. -/
def hrpAll : String → Bool := fun _ => true

/-- Country descriptor of the Palestinian territory. -/
def pseCountry : Country := ⟨"PS", "PSE", "State of Palestine"⟩

/-- Country descriptor of Colombia. -/
def colombia : Country := ⟨"CO", "COL", "Colombia"⟩

/-- Country descriptor of France. -/
def france : Country := ⟨"FR", "FRA", "France"⟩

/-- CSV decoder that always fails, for exercising the parse outcome. -/
def parseFail : String → Except ParseError SourceCsv :=
  fun _ => Except.error (ParseError.notTabular "column count mismatch")

/-- Source row whose Year field is non-numeric and whose Month field is
blank. -/
def srcRowBad : List (String × RawCell) :=
  [("Year", some "abc"), ("Month", none), ("Day", some "12")]

/-- Source CSV holding the bad row. -/
def srcBad : SourceCsv := ⟨["Year", "Month", "Day"], [srcRowBad]⟩

/-! Helper lemmas. -/

/-- Rows mapped to none by a filterMap can equivalently be removed by a
filter first. -/
theorem filterMap_filter_of_none {α β : Type} (f : α → Option β) (p : α → Bool)
    (h : ∀ x, p x = false → f x = none) (l : List α) :
    l.filterMap f = (l.filter p).filterMap f := by
  induction l with
  | nil => rfl
  | cons a l ih =>
    by_cases ha : p a = true
    · simp [List.filter_cons, ha, List.filterMap_cons, ih]
    · have ha2 : p a = false := by simpa using ha
      simp [List.filter_cons, ha2, List.filterMap_cons, h a ha2, ih]

/-! Claim theorems. -/

/-- C3: on every table in which no row composes a valid calendar date,
among them the empty table and tables whose rows all have unusable
components, get_date_range returns the configured sentinel pair, with
the end-of-range sentinel as first component and the start-of-range
sentinel as second; the function is total, so it raises nothing. -/
theorem c3_sentinel_pair (df : DataFrame) (h : ∀ r ∈ df.rows, rowDate r = none) :
    get_date_range df = (default_enddate, default_date) := by
  unfold get_date_range
  rw [show validDates df = [] from List.filterMap_eq_nil_iff.mpr h]
  rfl

/-- Witness for C3 at a one-row table whose composed date is invalid. -/
theorem c3_sentinel_pair_witness :
    get_date_range invalidDateData = (default_enddate, default_date) :=
  c3_sentinel_pair invalidDateData (by decide)

/-- C4: in get_date_range, the month component always lands in [1, 12]
and the day component in [1, 31]; missing Year, Month or Day values
default to 1; a present month 13 clamps to 12; and a row whose clamped
triple is no valid calendar date composes no date and is dropped from
the min and max computation, leaving the result of get_date_range the
one of the table without that row, with no exception raised. -/
theorem c4_clamp_default_exclude :
    (∀ r : Row, 1 ≤ monthVal r ∧ monthVal r ≤ 12 ∧ 1 ≤ dayVal r ∧ dayVal r ≤ 31)
    ∧ (∀ r : Row, (numCell r "Year" = none → yearVal r = 1)
        ∧ (numCell r "Month" = none → monthVal r = 1)
        ∧ (numCell r "Day" = none → dayVal r = 1))
    ∧ (∀ r : Row, numCell r "Month" = some 13 → monthVal r = 12)
    ∧ (∀ r : Row, daysInMonth (yearVal r) (monthVal r) < dayVal r → rowDate r = none)
    ∧ (∀ (cols : List String) (pre post : List Row) (r : Row), rowDate r = none →
        get_date_range ⟨cols, pre ++ r :: post⟩ = get_date_range ⟨cols, pre ++ post⟩) := by
  refine ⟨?_, ?_, ?_, ?_, ?_⟩
  · intro r
    unfold monthVal dayVal clip
    omega
  · intro r
    refine ⟨fun h => ?_, fun h => ?_, fun h => ?_⟩ <;>
      simp [yearVal, monthVal, dayVal, clip, h]
  · intro r h
    unfold monthVal
    rw [h]
    rfl
  · intro r h
    unfold rowDate composeDate
    rw [if_neg]
    intro hc
    obtain ⟨-, -, -, h4, -, -⟩ := hc
    omega
  · intro cols pre post r h
    unfold get_date_range
    congr 1
    simp [validDates, List.filterMap_append, List.filterMap_cons, h]

/-- Witness for C4 at rows with month 13 and with day 31 in April. -/
theorem c4_clamp_default_exclude_witness :
    (1 ≤ monthVal row2020 ∧ monthVal row2020 ≤ 12
      ∧ 1 ≤ dayVal row2020 ∧ dayVal row2020 ≤ 31)
    ∧ yearVal rowNoYear = 1
    ∧ monthVal row2020 = 12
    ∧ rowDate rowApril31 = none
    ∧ get_date_range ⟨dateCols, [rowApril31]⟩ = get_date_range ⟨dateCols, []⟩ :=
  ⟨c4_clamp_default_exclude.1 row2020,
   (c4_clamp_default_exclude.2.1 rowNoYear).1 (by decide),
   c4_clamp_default_exclude.2.2.1 row2020 (by decide),
   c4_clamp_default_exclude.2.2.2.1 rowApril31 (by decide),
   c4_clamp_default_exclude.2.2.2.2 dateCols [] [] rowApril31
     (c4_clamp_default_exclude.2.2.2.1 rowApril31 (by decide))⟩

/-- C10: a row whose Year value is missing never contributes to the
range: its year defaults to 1, whose dates precede the representable
timestamp range, so the composed candidate is null; consequently
get_date_range of any table equals get_date_range of its rows with a
present Year value. -/
theorem c10_missing_year_never_contributes :
    (∀ r : Row, numCell r "Year" = none → rowDate r = none)
    ∧ ∀ df : DataFrame,
        get_date_range df =
          get_date_range
            ⟨df.columns, df.rows.filter (fun r => (numCell r "Year").isSome)⟩ := by
  have hnone : ∀ r : Row, numCell r "Year" = none → rowDate r = none := by
    intro r h
    have hy : yearVal r = 1 := by simp [yearVal, h]
    unfold rowDate composeDate
    rw [hy, if_neg]
    intro hc
    obtain ⟨-, -, -, -, h5, -⟩ := hc
    norm_num [dateLE, minTimestampDate] at h5
  refine ⟨hnone, ?_⟩
  have hfm : ∀ l : List Row,
      l.filterMap rowDate =
        (l.filter (fun r => (numCell r "Year").isSome)).filterMap rowDate := by
    intro l
    apply filterMap_filter_of_none
    intro r hr
    apply hnone
    cases hx : numCell r "Year" with
    | none => rfl
    | some v => rw [hx] at hr; simp at hr
  intro df
  unfold get_date_range validDates
  congr 1
  exact hfm df.rows

/-- Witness for C10 at a row without a Year column. -/
theorem c10_missing_year_witness : rowDate rowNoYear = none :=
  c10_missing_year_never_contributes.1 rowNoYear (by decide)

/-- Column lookup in a loaded row reduces to column lookup in the
source row followed by the cell loading step. -/
theorem getCol_loadRow (src : SourceCsv) (r : List (String × RawCell)) (c : String) :
    getCol (loadRow src r) c =
      (r.find? (fun p => p.1 == c)).map (fun p => loadCellValue src p.1 p.2) := by
  unfold getCol loadRow
  rw [List.find?_map, Option.map_map]
  rfl

/-- C7: after the loading step of get_data, every row whose Year, Month
or Day field in the source CSV is missing or non-numeric stores a null
in that cell of the loaded table, not a zero and not a string. -/
theorem c7_nonnumeric_dates_null (src : SourceCsv) (r : List (String × RawCell))
    (c : String) (hc : c ∈ dateCols)
    (hbad : rawAt r c = none ∨ ∃ s, rawAt r c = some s ∧ parseInt? s = none) :
    cellAt (loadRow src r) c = none
    ∧ ∀ cell : Cell, getCol (loadRow src r) c = some cell → cell = none := by
  have hb : (rawAt r c).bind parseInt? = none := by
    rcases hbad with h | ⟨s, hs, hp⟩
    · rw [h]; rfl
    · rw [hs]; simpa using hp
  cases hfind : r.find? (fun p => p.1 == c) with
  | none =>
    refine ⟨?_, ?_⟩
    · simp [cellAt, getCol_loadRow, hfind]
    · intro cell hcell
      rw [getCol_loadRow, hfind] at hcell
      cases hcell
  | some p =>
    have hp1 : p.1 = c := by
      have := List.find?_some hfind
      simpa using this
    have hraw : rawAt r c = p.2 := by
      unfold rawAt
      rw [hfind]
      rfl
    have hload : loadCellValue src p.1 p.2 = none := by
      rw [hp1]
      rw [hraw] at hb
      simp [loadCellValue, hc, hb]
    refine ⟨?_, ?_⟩
    · simp [cellAt, getCol_loadRow, hfind, hload]
    · intro cell hcell
      rw [getCol_loadRow, hfind] at hcell
      simp [hload] at hcell
      exact hcell.symm

/-- Witness for C7 at a source row with a non-numeric Year field. -/
theorem c7_nonnumeric_dates_null_witness :
    cellAt (loadRow srcBad srcRowBad) "Year" = none :=
  (c7_nonnumeric_dates_null srcBad srcRowBad "Year" (by decide)
    (Or.inr ⟨"abc", by decide, by decide⟩)).1

/-- C8: get_data fails with the fetch error when the HTTP layer cannot
retrieve the resource, and with the parse error when the retrieved CSV
cannot be decoded as tabular data; these are its two error outcomes. -/
theorem c8_fetch_and_parse_errors (parseCsv : String → Except ParseError SourceCsv) :
    (∀ e : FetchError,
      get_data (Except.error e) parseCsv = Except.error (LoadError.fetch e))
    ∧ ∀ (raw : String) (e : ParseError), parseCsv raw = Except.error e →
      get_data (Except.ok raw) parseCsv = Except.error (LoadError.parse e) := by
  refine ⟨fun e => rfl, fun raw e h => ?_⟩
  simp [get_data, h]

/-- Witness for C8 at a failing fetch and a failing CSV decode. -/
theorem c8_fetch_and_parse_errors_witness :
    get_data (Except.error (FetchError.downloadFailed "http failure")) parseFail
      = Except.error (LoadError.fetch (FetchError.downloadFailed "http failure"))
    ∧ get_data (Except.ok "raw csv") parseFail
      = Except.error (LoadError.parse (ParseError.notTabular "column count mismatch")) :=
  ⟨(c8_fetch_and_parse_errors parseFail).1 (FetchError.downloadFailed "http failure"),
   (c8_fetch_and_parse_errors parseFail).2 "raw csv"
     (ParseError.notTabular "column count mismatch") rfl⟩

/-- C9: the loaded table is immutable after get_data: any sequence of
generate_dataset, generate_global_dataset and get_date_range calls
leaves the stored table unchanged, and the result of each method is the
same whatever sequence of calls preceded it. -/
theorem c9_table_immutable (p : Pipeline) (ops1 ops2 : List PipelineOp) :
    (runOps p ops1).data = p.data
    ∧ (∀ (res : String → Bool) (c : Country),
        ((runOps p ops1).runGenerateDataset res c).1
          = ((runOps p ops2).runGenerateDataset res c).1)
    ∧ (runOps p ops1).runGenerateGlobalDataset.1
        = (runOps p ops2).runGenerateGlobalDataset.1 := by
  have hid : ∀ (ops : List PipelineOp) (q : Pipeline), runOps q ops = q := by
    intro ops
    induction ops with
    | nil => intro q; rfl
    | cons op ops ih =>
      intro q
      have h1 : runOp q op = q := by cases op <;> rfl
      show runOps (runOp q op) ops = q
      rw [h1]
      exact ih q
  rw [hid, hid]
  exact ⟨rfl, fun res c => rfl, rfl⟩

/-- C5: for a country none of whose rows match, generate_dataset returns
an explicit absence instead of raising, and the country loop of a run
produces the same datasets as if that country were not looped at all. -/
theorem c5_no_data_returns_none (cfg : Config) (res : String → Bool)
    (hrp : String → Bool) (data : DataFrame) (c : Country)
    (h : ∀ r ∈ data.rows, rowMatches r c.iso2 = false) :
    generate_dataset cfg res data c = none
    ∧ ∀ pre post : List Country,
        runCountries cfg res hrp data (pre ++ c :: post)
          = runCountries cfg res hrp data (pre ++ post) := by
  have hfilter : (countryFilter data c.iso2).rows = [] := by
    simp only [countryFilter]
    rw [List.filter_eq_nil_iff]
    intro r hr
    simp [h r hr]
  have hnone : generate_dataset cfg res data c = none := by
    unfold generate_dataset
    rw [hfilter]
    rfl
  refine ⟨hnone, fun pre post => ?_⟩
  unfold runCountries
  rw [List.filterMap_append, List.filterMap_append]
  congr 1
  have hfc : (if hrpOrPSE hrp c = true then generate_dataset cfg res data c else none)
      = none := by
    split
    · exact hnone
    · rfl
  simp only [List.filterMap_cons]
  rw [hfc]

/-- Witness for C5 at a country with zero matching rows. -/
theorem c5_no_data_returns_none_witness :
    generate_dataset cfgSample resolveAll sampleData france = none
    ∧ runCountries cfgSample resolveAll hrpAll sampleData [france, colombia]
        = runCountries cfgSample resolveAll hrpAll sampleData [colombia] :=
  ⟨(c5_no_data_returns_none cfgSample resolveAll hrpAll sampleData france (by decide)).1,
   (c5_no_data_returns_none cfgSample resolveAll hrpAll sampleData france
     (by decide)).2 [] [colombia]⟩

/-- Column lookup distributes over a cons of a row. -/
theorem getCol_cons (x : String × Cell) (xs : Row) (c : String) :
    getCol (x :: xs) c = if (x.1 == c) = true then some x.2 else getCol xs c := by
  unfold getCol
  rw [List.find?_cons]
  by_cases h : (x.1 == c) = true <;> simp [h]

/-- A dataset returned by generate_dataset is the assembled country
dataset. -/
theorem generate_dataset_some_eq {cfg : Config} {res : String → Bool}
    {data : DataFrame} {c : Country} {ds : Dataset}
    (h : generate_dataset cfg res data c = some ds) :
    ds = mkCountryDataset cfg data c := by
  unfold generate_dataset at h
  split at h
  · cases h
  · split at h
    · exact (Option.some.inj h).symm
    · cases h

/-- Column lookup after the geo-cell transformation: geo columns are
transformed, others untouched. -/
theorem getCol_mapGeoCells (r : Row) (f : Cell → Cell) (c : String) :
    getCol (mapGeoCells r f) c =
      if c ∈ geoCols then (getCol r c).map f else getCol r c := by
  induction r with
  | nil => simp [mapGeoCells, getCol]
  | cons a l ih =>
    simp only [mapGeoCells, List.map_cons] at ih ⊢
    by_cases hac : a.1 = c
    · subst hac
      by_cases hk : a.1 ∈ geoCols <;>
        simp [hk, getCol_cons]
    · have hbe : (a.1 == c) = false := by simp [hac]
      by_cases hk : a.1 ∈ geoCols <;>
        simp [hk, getCol_cons, hbe, ih]

/-- Column lookup in a row with the given columns dropped yields none
for each dropped column. -/
theorem getCol_dropFiltered (r : Row) (cols : List String) (c : String)
    (hc : c ∈ cols) :
    getCol (r.filter (fun p => !(decide (p.1 ∈ cols)))) c = none := by
  induction r with
  | nil => rfl
  | cons a l ih =>
    by_cases ha : a.1 ∈ cols
    · simp [List.filter_cons, ha, ih]
    · have hbe : (a.1 == c) = false := by
        simp only [beq_eq_false_iff_ne, ne_eq]
        intro he
        rw [he] at ha
        exact ha hc
      simp [List.filter_cons, ha, getCol_cons, hbe, ih]

/-- Serialization of a cell is unchanged by the string cast. -/
theorem cellRepr_cellAsString (v : Cell) : cellRepr (cellAsString v) = cellRepr v := by
  rcases v with - | v
  · rfl
  · rcases v with n | s <;> rfl

/-- The geo-cell transformation preserves the column names of a row. -/
theorem rowKeys_mapGeoCells (r : Row) (f : Cell → Cell) :
    rowKeys (mapGeoCells r f) = rowKeys r := by
  induction r with
  | nil => rfl
  | cons a l ih =>
    have hga : (if a.1 ∈ geoCols then (a.1, f a.2) else a).1 = a.1 := by
      split <;> rfl
    simp only [mapGeoCells, rowKeys, List.map_cons] at ih ⊢
    rw [hga, ih]

/-- The global row transformation preserves the column names of a row. -/
theorem rowKeys_globalRow (r : Row) : rowKeys (globalRow r) = rowKeys r := by
  unfold globalRow
  by_cases h : rowMatches r "PS" = true <;>
    simp [h, rowKeys_mapGeoCells]

/-- C2: for both the per-country scope and the global scope, the time
period attached to the dataset equals the date range computed by
get_date_range from exactly the headers and rows serialized into the
resource file, the projected table after any redaction. -/
theorem c2_time_period_matches_resource (cfg : Config) (res : String → Bool)
    (data : DataFrame) (c : Country) (ds gds : Dataset)
    (hds : generate_dataset cfg res data c = some ds)
    (hgds : generate_global_dataset cfg data = some gds) :
    ds.timePeriod = get_date_range ⟨ds.resourceHeaders, ds.resourceRows⟩
    ∧ gds.timePeriod = get_date_range ⟨gds.resourceHeaders, gds.resourceRows⟩ := by
  have hds2 : ds = mkCountryDataset cfg data c := generate_dataset_some_eq hds
  have hgds2 : gds = mkGlobalDataset cfg data := (Option.some.inj hgds).symm
  subst hds2
  subst hgds2
  exact ⟨rfl, rfl⟩

/-- Witness for C2 at the sample table, the Colombian scope and the
global scope. -/
theorem c2_time_period_matches_resource_witness :
    (mkCountryDataset cfgSample sampleData colombia).timePeriod
      = get_date_range ⟨(mkCountryDataset cfgSample sampleData colombia).resourceHeaders,
          (mkCountryDataset cfgSample sampleData colombia).resourceRows⟩
    ∧ (mkGlobalDataset cfgSample sampleData).timePeriod
      = get_date_range ⟨(mkGlobalDataset cfgSample sampleData).resourceHeaders,
          (mkGlobalDataset cfgSample sampleData).resourceRows⟩ :=
  c2_time_period_matches_resource cfgSample resolveAll sampleData colombia
    (mkCountryDataset cfgSample sampleData colombia)
    (mkGlobalDataset cfgSample sampleData) (by decide) rfl

/-- C1: for a country with iso3 PSE, the per-country dataset resource
carries no Latitude, Longitude or City column, neither in its headers
nor in any serialized row; the global dataset resource keeps the full
column shape of the table for every row, stores the empty string in the
geo cells of every row whose Country Code is PS, and leaves the
serialized geo values of all other rows unchanged. -/
theorem c1_pse_redaction_asymmetry (cfg : Config) (res : String → Bool)
    (data : DataFrame) (c : Country) (ds gds : Dataset)
    (hiso3 : c.iso3 = "PSE")
    (hds : generate_dataset cfg res data c = some ds)
    (hgds : generate_global_dataset cfg data = some gds) :
    ("Latitude" ∉ ds.resourceHeaders ∧ "Longitude" ∉ ds.resourceHeaders
      ∧ "City" ∉ ds.resourceHeaders
      ∧ ∀ r ∈ ds.resourceRows, ∀ col ∈ geoCols, getCol r col = none)
    ∧ (gds.resourceHeaders = data.columns
      ∧ gds.resourceRows = data.rows.map globalRow
      ∧ (∀ r ∈ data.rows, rowKeys (globalRow r) = rowKeys r)
      ∧ (∀ r ∈ data.rows, rowMatches r "PS" = true → ∀ col ∈ geoCols,
          (getCol r col).isSome = true →
          getCol (globalRow r) col = some (some (Value.str "")))
      ∧ (∀ r ∈ data.rows, rowMatches r "PS" = false → ∀ col : String,
          (getCol (globalRow r) col).map cellRepr = (getCol r col).map cellRepr)) := by
  have hds2 : ds = mkCountryDataset cfg data c := generate_dataset_some_eq hds
  have hgds2 : gds = mkGlobalDataset cfg data := (Option.some.inj hgds).symm
  subst hds2
  subst hgds2
  have hproj : countryProjection data c.iso2 c.iso3
      = dropColumns (countryFilter data c.iso2) geoCols := by
    unfold countryProjection
    rw [if_pos hiso3]
  constructor
  · have hhead : (mkCountryDataset cfg data c).resourceHeaders
        = data.columns.filter (fun x => !(decide (x ∈ geoCols))) := by
      show (countryProjection data c.iso2 c.iso3).columns = _
      rw [hproj]
      rfl
    have hnotmem : ∀ s : String, s ∈ geoCols →
        s ∉ (mkCountryDataset cfg data c).resourceHeaders := by
      intro s hs hmem
      rw [hhead] at hmem
      have h2 := (List.mem_filter.mp hmem).2
      simp [hs] at h2
    refine ⟨hnotmem "Latitude" (by decide), hnotmem "Longitude" (by decide),
      hnotmem "City" (by decide), ?_⟩
    intro r hr col hcol
    have hrows : (mkCountryDataset cfg data c).resourceRows
        = (countryFilter data c.iso2).rows.map
            (fun r => r.filter (fun p => !(decide (p.1 ∈ geoCols)))) := by
      show (countryProjection data c.iso2 c.iso3).rows = _
      rw [hproj]
      rfl
    rw [hrows] at hr
    obtain ⟨r0, -, rfl⟩ := List.mem_map.mp hr
    exact getCol_dropFiltered r0 geoCols col hcol
  · refine ⟨rfl, rfl, fun r _ => rowKeys_globalRow r, ?_, ?_⟩
    · intro r _ hm col hcol hsome
      unfold globalRow
      rw [if_pos hm, getCol_mapGeoCells, if_pos hcol, getCol_mapGeoCells, if_pos hcol]
      obtain ⟨v, hv⟩ := Option.isSome_iff_exists.mp hsome
      rw [hv]
      rfl
    · intro r _ hm col
      unfold globalRow
      rw [if_neg (by simp [hm]), getCol_mapGeoCells]
      by_cases hcol : col ∈ geoCols
      · rw [if_pos hcol, Option.map_map]
        cases hx : getCol r col with
        | none => rfl
        | some v => simp [Function.comp, cellRepr_cellAsString]
      · rw [if_neg hcol]

/-- Witness for C1 at the sample table and the Palestinian scope. -/
theorem c1_pse_redaction_asymmetry_witness :
    "Latitude" ∉ (mkCountryDataset cfgSample sampleData pseCountry).resourceHeaders
    ∧ getCol (globalRow rowPS) "Latitude" = some (some (Value.str ""))
    ∧ (getCol (globalRow rowCO) "Latitude").map cellRepr
        = (getCol rowCO "Latitude").map cellRepr := by
  have t := c1_pse_redaction_asymmetry cfgSample resolveAll sampleData pseCountry
    (mkCountryDataset cfgSample sampleData pseCountry)
    (mkGlobalDataset cfgSample sampleData) rfl (by decide) rfl
  exact ⟨t.1.1,
    t.2.2.2.2.1 rowPS (by decide) (by decide) "Latitude" (by decide) (by decide),
    t.2.2.2.2.2 rowCO (by decide) (by decide) "Latitude"⟩

/-- Formalization of claim C6 as stated: every row of the table lies in
the per-country projection of exactly one looped country. -/
def eachRowExactlyOne (data : DataFrame) (countries : List Country) : Prop :=
  ∀ r ∈ data.rows, ∃! c : Country,
    c ∈ countries ∧ r ∈ (countryFilter data c.iso2).rows

/-- Counterexample to C6: a table whose only row has country code XX is
in the per-country projection of no looped country at all, so no row of
it belongs to exactly one per-country dataset. -/
theorem c6_counterexample : ¬ eachRowExactlyOne orphanData [colombia] := by
  intro h
  obtain ⟨c, ⟨hmem, hrow⟩, -⟩ := h rowXX (by decide)
  have hc : c = colombia := by simpa using hmem
  subst hc
  revert hrow
  decide

/-- Projections of countries with pairwise distinct iso2 codes hold a
given row at most once. -/
theorem filter_matches_length_le_one (r : Row) :
    ∀ countries : List Country,
      countries.Pairwise (fun a b => a.iso2 ≠ b.iso2) →
      (countries.filter (fun c => rowMatches r c.iso2)).length ≤ 1 := by
  intro countries
  induction countries with
  | nil => intro _; simp
  | cons a l ih =>
    intro hdist
    rw [List.pairwise_cons] at hdist
    by_cases ha : rowMatches r a.iso2 = true
    · have htail : l.filter (fun c => rowMatches r c.iso2) = [] := by
        rw [List.filter_eq_nil_iff]
        intro b hb hbm
        have h1 : cellAt r "Country Code" = some (Value.str a.iso2) :=
          of_decide_eq_true ha
        have h2 : cellAt r "Country Code" = some (Value.str b.iso2) :=
          of_decide_eq_true hbm
        have heq : a.iso2 = b.iso2 := by
          rw [h1] at h2
          simpa using h2
        exact hdist.1 b hb heq
      simp [List.filter_cons, ha, htail]
    · have ha2 : rowMatches r a.iso2 = false := by simpa using ha
      simp only [List.filter_cons, ha2, Bool.false_eq_true, if_false]
      exact ih hdist.2

/-- C6 amended: membership of a row in the per-country projection of a
country is determined solely by the equality of the row country-code
cell with the country iso2; when the looped countries carry pairwise
distinct iso2 codes, a row matches at most one of them — at most one,
not exactly one, since a row may match none. -/
theorem c6_amended_at_most_one (data : DataFrame) (countries : List Country)
    (hdist : countries.Pairwise (fun a b => a.iso2 ≠ b.iso2)) (r : Row) :
    (∀ c : Country,
      r ∈ (countryFilter data c.iso2).rows
        ↔ r ∈ data.rows ∧ rowMatches r c.iso2 = true)
    ∧ (countries.filter (fun c => rowMatches r c.iso2)).length ≤ 1
    ∧ (∀ (r2 : Row) (iso2 : String),
        cellAt r "Country Code" = cellAt r2 "Country Code" →
        rowMatches r iso2 = rowMatches r2 iso2) := by
  refine ⟨?_, filter_matches_length_le_one r countries hdist, ?_⟩
  · intro c
    simp [countryFilter, List.mem_filter]
  · intro r2 iso2 hcc
    unfold rowMatches
    rw [hcc]

/-- Witness for the amended C6 at two distinct countries. -/
theorem c6_amended_at_most_one_witness :
    (rowCO ∈ (countryFilter sampleData colombia.iso2).rows
      ↔ rowCO ∈ sampleData.rows ∧ rowMatches rowCO colombia.iso2 = true)
    ∧ ([colombia, france].filter (fun c => rowMatches rowCO c.iso2)).length ≤ 1 := by
  have t := c6_amended_at_most_one sampleData [colombia, france] (by decide) rowCO
  exact ⟨t.1 colombia, t.2.1⟩

end Humoutcomes
